import Mathlib

set_option maxRecDepth 100000

/-!
Verification of the create-express-app scaffolding CLI.

Shallow embedding of the repository's logic:
* `ProjectConfig` mirrors the interface in `src/prompts.ts`.
* The generated tree is modelled as an association list from paths
  (lists of components) to file contents; `fs.remove` / `fs.writeFile` /
  the `fs.copy` filter become list operations on that model.
* `Generator.configureDatabase`, `generatePrismaSchema`,
  `updatePackageJson`, `removeDockerFiles` and `cleanGitFiles` are
  translated from `src/generator.ts`.
* The installer (`src/installer.ts`) is modelled as a trace of external
  commands together with a success oracle; failures short-circuit.
* The orchestrator (`src/index.ts` `program.action`) becomes a pure
  function from a world (target-dir existence, command oracles) to an
  outcome record (exit code, generated tree, external trace, printing).
-/

/-- Database choice, from the `ProjectConfig` interface in `src/prompts.ts`. -/
inductive Database
  | mongodb
  | postgresql
deriving DecidableEq

/-- ORM choice (only meaningful for PostgreSQL), from `src/prompts.ts`. -/
inductive Orm
  | prisma
  | drizzle
deriving DecidableEq

/-- The `ProjectConfig` interface of `src/prompts.ts`:
`{projectName, database, orm?, includeDocker}`. -/
structure ProjectConfig where
  projectName : String
  database : Database
  orm : Option Orm
  includeDocker : Bool
deriving DecidableEq

/-- The validity invariant stated by the spec: `orm` is defined if and only if
`database = postgresql`. -/
def validConfig (cfg : ProjectConfig) : Bool :=
  cfg.orm.isSome == decide (cfg.database = Database.postgresql)

/-- A filesystem FPath, as a list of components. -/
abbrev FPath := List String

/-- A file tree: an association list from paths to file contents. -/
abbrev FS := List (FPath × String)

/-- Look up the content of the file at path `p`, if present. -/
def fsLookup : FS → FPath → Option String
  | [], _ => none
  | e :: rest, p => if e.1 = p then some e.2 else fsLookup rest p

/-- Keep only the entries whose path satisfies `keep`. -/
def filterPaths (keep : FPath → Bool) (fs : FS) : FS :=
  fs.filter (fun e => keep e.1)

/-- `isUnder p q` holds when `q` equals `p` or lies inside the directory `p`
(`p` is a component-wise prefix of `q`). -/
def isUnder : FPath → FPath → Bool
  | [], _ => true
  | _ :: _, [] => false
  | a :: as, b :: bs => if a = b then isUnder as bs else false

/-- `fs.remove(p)`: delete the file or directory at `p` (recursively),
best-effort (no error if absent). -/
def remove (p : FPath) (fs : FS) : FS :=
  filterPaths (fun q => !(isUnder p q)) fs

/-- `fs.writeFile(p, c)`: create or overwrite the file at `p` with content `c`. -/
def writeFile (p : FPath) (c : String) (fs : FS) : FS :=
  (p, c) :: filterPaths (fun q => !(decide (q = p))) fs

/-- The `fs.copy` filter of `Generator.copyTemplate`: an entry is copied when
no component of its path is `node_modules` or `dist`. -/
def copyKeep (p : FPath) : Bool :=
  p.all (fun c => !(decide (c = "node_modules")) && !(decide (c = "dist")))

/-- `Generator.copyTemplate`: copy the template tree, excluding any entry named
`node_modules` or `dist`. -/
def copyTemplate (tpl : FS) : FS :=
  filterPaths copyKeep tpl

/-- Path of the database barrel file `src/database/index.ts`. -/
def dbDir : FPath := ["src", "database"]

/-- Path of the barrel file rewritten by `configureDatabase`. -/
def indexPath : FPath := ["src", "database", "index.ts"]

/-- Path of the generated `prisma/schema.prisma`. -/
def prismaSchemaPath : FPath := ["prisma", "schema.prisma"]

/-- Barrel content written in the mongodb branch of `configureDatabase`. -/
def mongooseBarrel : String :=
  "/**\n * Database Connection\n * \n * MongoDB with Mongoose\n */\n\nexport * from \x27./mongoose.connection\x27;\n"

/-- Barrel content written in the postgresql+prisma branch of `configureDatabase`. -/
def prismaBarrel : String :=
  "/**\n * Database Connection\n * \n * PostgreSQL with Prisma\n */\n\nexport * from \x27./prisma.connection\x27;\n"

/-- Barrel content written in the postgresql+drizzle branch of `configureDatabase`. -/
def drizzleBarrel : String :=
  "/**\n * Database Connection\n * \n * PostgreSQL with Drizzle\n */\n\nexport * from \x27./drizzle.connection\x27;\n"

/-- The schema file content written by `Generator.generatePrismaSchema`. -/
def prismaSchemaContent : String :=
  "// This is your Prisma schema file\n     // Learn more: https://pris.ly/d/prisma-schema\n\n     generator client \x7b\n       provider = \"prisma-client-js\"\n     \x7d\n\n     datasource db \x7b\n      provider = \"postgresql\"\n      url      = env(\"DATABASE_URL\")\n     \x7d\n\n     // Example User model\n     // Uncomment and modify as needed\n     // model User \x7b\n     //   id        String   @id @default(uuid())\n     //   email     String   @unique\n     //   name      String?\n     //   password  String\n     //   createdAt DateTime @default(now())\n     //   updatedAt DateTime @updatedAt\n     // \x7d\n    "

/-- `Generator.generatePrismaSchema`: write `prisma/schema.prisma`
(`fs.ensureDir` has no effect in the file-entry model). -/
def generatePrismaSchema (fs : FS) : FS :=
  writeFile prismaSchemaPath prismaSchemaContent fs

/-- `Generator.configureDatabase`, translated branch by branch from
`src/generator.ts` lines 73-120. -/
def configureDatabase (cfg : ProjectConfig) (fs : FS) : FS :=
  if cfg.database = Database.mongodb then
    writeFile indexPath mongooseBarrel
      (remove ["drizzle.config.ts"]
        (remove ["drizzle"]
          (remove ["prisma"]
            (remove (dbDir ++ ["drizzle.connection.ts"])
              (remove (dbDir ++ ["prisma.connection.ts"]) fs)))))
  else if cfg.database = Database.postgresql then
    let fs1 := remove (dbDir ++ ["mongoose.connection.ts"]) fs
    if cfg.orm = some Orm.prisma then
      writeFile indexPath prismaBarrel
        (generatePrismaSchema
          (remove ["drizzle.config.ts"]
            (remove ["drizzle"]
              (remove (dbDir ++ ["drizzle.connection.ts"]) fs1))))
    else if cfg.orm = some Orm.drizzle then
      writeFile indexPath drizzleBarrel
        (remove ["prisma"]
          (remove (dbDir ++ ["prisma.connection.ts"]) fs1))
    else
      fs1
  else
    fs

/-- The `package.json` manifest: the fields the generator touches, plus the
scripts map and the remaining fields kept opaque. -/
structure PackageJson where
  name : String
  version : String
  scripts : List (String × String)
  extra : List (String × String)
deriving DecidableEq

/-- JavaScript object-key assignment `obj[k] = v` on an ordered map:
overwrite in place when the key exists, append otherwise. -/
def setScript (k v : String) : List (String × String) → List (String × String)
  | [] => [(k, v)]
  | (k2, v2) :: rest =>
    if k2 = k then (k, v) :: rest else (k2, v2) :: setScript k v rest

/-- Ordered-map lookup for script entries. -/
def scriptLookup : List (String × String) → String → Option String
  | [], _ => none
  | (k2, v) :: rest, k => if k2 = k then some v else scriptLookup rest k

/-- `Generator.updatePackageJson`: set `name` and `version`, then add the
database-specific script entries from `src/generator.ts` lines 162-184. -/
def updatePackageJson (cfg : ProjectConfig) (pkg : PackageJson) : PackageJson :=
  let pkg1 := { pkg with name := cfg.projectName, version := "0.1.0" }
  if cfg.database = Database.postgresql then
    if cfg.orm = some Orm.prisma then
      { pkg1 with scripts :=
          (setScript "db:studio" "prisma studio"
            (setScript "db:generate" "prisma generate"
              (setScript "db:migrate" "prisma migrate dev" pkg1.scripts))) }
    else if cfg.orm = some Orm.drizzle then
      { pkg1 with scripts :=
          (setScript "db:studio" "drizzle-kit studio"
            (setScript "db:generate" "drizzle-kit generate:pg"
              (setScript "db:push" "drizzle-kit push:pg" pkg1.scripts))) }
    else
      pkg1
  else
    pkg1

/-- `Generator.removeDockerFiles`: delete the three Docker files. -/
def removeDockerFiles (fs : FS) : FS :=
  remove [".dockerignore"] (remove ["docker-compose.yml"] (remove ["Dockerfile"] fs))

/-- `Generator.cleanGitFiles`: delete the template's `.git` directory. -/
def cleanGitFiles (fs : FS) : FS :=
  remove [".git"] fs

/-- A generated project: the file tree together with the parsed manifest
(the manifest is read from and written back to `package.json`; it is kept
alongside the tree in the model). -/
structure Project where
  fs : FS
  manifest : PackageJson
deriving DecidableEq

/-- `Generator.generate`: copy the template, configure the database, update
the manifest, drop Docker files when not wanted, drop the template `.git`. -/
def generate (cfg : ProjectConfig) (tpl : Project) : Project :=
  let fs1 := configureDatabase cfg (copyTemplate tpl.fs)
  let m := updatePackageJson cfg tpl.manifest
  let fs2 := if cfg.includeDocker = false then removeDockerFiles fs1 else fs1
  { fs := cleanGitFiles fs2, manifest := m }

/-- An external command invocation (program plus argument list). -/
structure Cmd where
  prog : String
  args : List String
deriving DecidableEq

/-- The base `npm install` with no package arguments. -/
def npmBaseCmd : Cmd := { prog := "npm", args := ["install"] }

/-- `npm install <deps...>` for runtime dependencies. -/
def npmInstallCmd (ds : List String) : Cmd := { prog := "npm", args := "install" :: ds }

/-- `npm install --save-dev <deps...>` for dev dependencies. -/
def npmInstallDevCmd (ds : List String) : Cmd :=
  { prog := "npm", args := "install" :: "--save-dev" :: ds }

/-- `npx prisma generate`, the post-install step. -/
def prismaGenerateCmd : Cmd := { prog := "npx", args := ["prisma", "generate"] }

/-- The five git commands run by `Installer.initGit`, in order. -/
def gitCmds : List Cmd :=
  [ { prog := "git", args := ["init"] },
    { prog := "git", args := ["config", "user.email", "user@example.com"] },
    { prog := "git", args := ["config", "user.name", "User"] },
    { prog := "git", args := ["add", "."] },
    { prog := "git", args := ["commit", "-m", "feat: initial project setup from create-express-app"] } ]

/-- Run one command: the trace records it; the oracle decides success. -/
def runCmd (ok : Cmd → Bool) (c : Cmd) : List Cmd × Bool :=
  ([c], ok c)

/-- Run one command guarded by a condition; a skipped command succeeds. -/
def runIf (b : Bool) (ok : Cmd → Bool) (c : Cmd) : List Cmd × Bool :=
  if b then runCmd ok c else ([], true)

/-- Sequence two runs: the second executes only when the first succeeds
(an `await` that throws skips the rest of the function body). -/
def andThen (a b : List Cmd × Bool) : List Cmd × Bool :=
  if a.2 then (a.1 ++ b.1, b.2) else a

/-- Run a list of commands in order, stopping at the first failure. -/
def runSeq (ok : Cmd → Bool) : List Cmd → List Cmd × Bool
  | [] => ([], true)
  | c :: cs =>
    if ok c then
      let r := runSeq ok cs
      (c :: r.1, r.2)
    else ([c], false)

/-- Runtime dependency list of `Installer.installDatabaseDependencies`. -/
def depsFor (cfg : ProjectConfig) : List String :=
  match cfg.database, cfg.orm with
  | Database.mongodb, _ => ["mongoose"]
  | Database.postgresql, some Orm.prisma => ["@prisma/client@^6.0.0"]
  | Database.postgresql, some Orm.drizzle => ["drizzle-orm", "pg"]
  | Database.postgresql, none => []

/-- Dev dependency list of `Installer.installDatabaseDependencies`. -/
def devDepsFor (cfg : ProjectConfig) : List String :=
  match cfg.database, cfg.orm with
  | Database.mongodb, _ => []
  | Database.postgresql, some Orm.prisma => ["prisma@^6.0.0"]
  | Database.postgresql, some Orm.drizzle => ["drizzle-kit", "@types/pg"]
  | Database.postgresql, none => []

/-- `Installer.runPostInstallTasks`: `npx prisma generate` only for
postgresql+prisma; a failure there is rethrown after the spinner message. -/
def runPostInstallTasks (cfg : ProjectConfig) (ok : Cmd → Bool) : List Cmd × Bool :=
  if cfg.database = Database.postgresql ∧ cfg.orm = some Orm.prisma then
    runCmd ok prismaGenerateCmd
  else ([], true)

/-- `Installer.installDatabaseDependencies`: runtime deps install when
non-empty, then dev deps install when non-empty, then the post-install step. -/
def installDatabaseDependencies (cfg : ProjectConfig) (ok : Cmd → Bool) : List Cmd × Bool :=
  andThen (runIf (decide (0 < (depsFor cfg).length)) ok (npmInstallCmd (depsFor cfg)))
    (andThen (runIf (decide (0 < (devDepsFor cfg).length)) ok (npmInstallDevCmd (devDepsFor cfg)))
      (runPostInstallTasks cfg ok))

/-- `Installer.installDependencies`: base `npm install`, then the
database-specific installs; the catch block rethrows, so any failure
propagates (the result's boolean is `false`). -/
def installDependencies (cfg : ProjectConfig) (ok : Cmd → Bool) : List Cmd × Bool :=
  andThen (runCmd ok npmBaseCmd) (installDatabaseDependencies cfg ok)

/-- Result of `Installer.initGit`: the executed git commands and whether the
catch block printed the warning. `initGit` never rethrows. -/
structure GitResult where
  trace : List Cmd
  warned : Bool
deriving DecidableEq

/-- `Installer.initGit`: run the five git commands in order; any failure is
caught and turned into a warning. -/
def initGit (ok : Cmd → Bool) : GitResult :=
  { trace := (runSeq ok gitCmds).1, warned := !(runSeq ok gitCmds).2 }

/-- What the user would answer each prompt of `promptUser` if it were shown.
The list questions always yield one of their choices. -/
structure Answers where
  projectName : String
  database : Database
  orm : Orm
  includeDocker : Bool

/-- The `when` guard of the ORM question in `src/prompts.ts`:
`(answers) => answers.database === "postgresql"`. -/
def ormQuestionShown (db : Database) : Bool :=
  decide (db = Database.postgresql)

/-- `promptUser`, modelling inquirer's semantics: a question whose `when`
guard is false is skipped and its name is absent from the answers object;
a shown list question always yields an answer. -/
def promptUser (a : Answers) : ProjectConfig :=
  { projectName := a.projectName
    database := a.database
    orm := if ormQuestionShown a.database then some a.orm else none
    includeDocker := a.includeDocker }

/-- The environment the orchestrator runs in: whether the target directory
already exists, and success oracles for installer and git commands. -/
structure World where
  targetExists : Bool
  installOk : Cmd → Bool
  gitOk : Cmd → Bool

/-- Observable outcome of one run of the CLI's `program.action`. -/
structure Outcome where
  exitCode : Nat
  generated : Option Project
  extTrace : List Cmd
  errorPrinted : Bool
  successPrinted : Bool
  gitWarned : Bool

/-- The orchestrator `program.action` in `src/index.ts`: abort with exit 1
when the target directory exists; otherwise generate, install (abort with
exit 1 via the catch block when installation fails), run `initGit`
(never fatal), and print the success message. -/
def action (cfg : ProjectConfig) (tpl : Project) (w : World) : Outcome :=
  if w.targetExists = true then
    { exitCode := 1, generated := none, extTrace := [],
      errorPrinted := false, successPrinted := false, gitWarned := false }
  else if (installDependencies cfg w.installOk).2 = true then
    { exitCode := 0, generated := some (generate cfg tpl),
      extTrace := (installDependencies cfg w.installOk).1 ++ (initGit w.gitOk).trace,
      errorPrinted := false, successPrinted := true,
      gitWarned := (initGit w.gitOk).warned }
  else
    { exitCode := 1, generated := some (generate cfg tpl),
      extTrace := (installDependencies cfg w.installOk).1,
      errorPrinted := true, successPrinted := false, gitWarned := false }

/-- Does the pattern occur at the head of the character list? -/
def startsWithL : List Char → List Char → Bool
  | _, [] => true
  | [], _ :: _ => false
  | a :: as, b :: bs => if a = b then startsWithL as bs else false

/-- Does the pattern occur anywhere in the character list? -/
def hasSub (pat : List Char) : List Char → Bool
  | [] => startsWithL [] pat
  | c :: rest => startsWithL (c :: rest) pat || hasSub pat rest

/-- Substring test on strings. -/
def strContains (s pat : String) : Bool :=
  hasSub pat.data s.data

/-- The three database connection files shipped in the template. -/
def connFiles : List String :=
  ["mongoose.connection.ts", "prisma.connection.ts", "drizzle.connection.ts"]

/-- The connection files still present in `src/database` of a tree. -/
def survivors (fs : FS) : List String :=
  connFiles.filter (fun f => (fsLookup fs (dbDir ++ [f])).isSome)

/-- The barrel content `configureDatabase` writes when it retains the given
connection file. -/
def barrelFor : String → String
  | "mongoose.connection.ts" => mongooseBarrel
  | "prisma.connection.ts" => prismaBarrel
  | "drizzle.connection.ts" => drizzleBarrel
  | _ => ""

/-- The script keys `updatePackageJson` may touch for a given config. -/
def touchedScriptKeys (cfg : ProjectConfig) : List String :=
  match cfg.database, cfg.orm with
  | Database.postgresql, some Orm.prisma => ["db:migrate", "db:generate", "db:studio"]
  | Database.postgresql, some Orm.drizzle => ["db:push", "db:generate", "db:studio"]
  | _, _ => []

/-- A run result is sound for an oracle when overall success implies every
traced command succeeded. -/
def AllOk (ok : Cmd → Bool) (r : List Cmd × Bool) : Prop :=
  r.2 = true → ∀ c, c ∈ r.1 → ok c = true

/-- A small concrete template tree used by the concrete witnesses. -/
def tplFS : FS :=
  [ (["src", "database", "mongoose.connection.ts"], "m"),
    (["src", "database", "prisma.connection.ts"], "p"),
    (["src", "database", "drizzle.connection.ts"], "d"),
    (["src", "database", "index.ts"], "i"),
    (["drizzle.config.ts"], "dcfg"),
    (["Dockerfile"], "dk"),
    (["docker-compose.yml"], "dcy"),
    ([".dockerignore"], "dig"),
    ([".git", "HEAD"], "ref"),
    (["node_modules", "x.js"], "nm") ]

/-- A small concrete manifest used by the concrete witnesses. -/
def pkgW : PackageJson :=
  { name := "boilerplate", version := "1.0.0",
    scripts := [("dev", "tsx watch src/index.ts"), ("test", "jest")],
    extra := [("license", "MIT")] }

/-- A concrete template project for the witnesses. -/
def tplW : Project := { fs := tplFS, manifest := pkgW }

/-- A concrete mongodb config (valid: no ORM). -/
def cfgMongo : ProjectConfig :=
  { projectName := "demo", database := Database.mongodb, orm := none, includeDocker := false }

/-- A concrete postgresql+prisma config (valid). -/
def cfgPrisma : ProjectConfig :=
  { projectName := "demo", database := Database.postgresql, orm := some Orm.prisma,
    includeDocker := true }

/-- A concrete invalid config: postgresql with no ORM. -/
def cfgPgNone : ProjectConfig :=
  { projectName := "demo", database := Database.postgresql, orm := none, includeDocker := true }

/-- The module name of a connection file: the filename with the final
three characters (the `.ts` extension) removed. -/
def moduleName (k : String) : String :=
  String.mk (k.data.take (k.data.length - 3))

theorem fsLookup_filterPaths (keep : FPath → Bool) (fs : FS) (p : FPath) :
    fsLookup (filterPaths keep fs) p = if keep p then fsLookup fs p else none := by
  induction fs with
  | nil =>
    simp [filterPaths, fsLookup]
  | cons e rest ih =>
    by_cases hp : e.1 = p
    · subst hp
      by_cases hk : keep e.1
      · simp [filterPaths, List.filter_cons, hk, fsLookup]
      · simpa [filterPaths, List.filter_cons, hk, fsLookup] using ih
    · by_cases hk : keep e.1
      · simpa [filterPaths, List.filter_cons, hk, fsLookup, hp] using ih
      · simpa [filterPaths, List.filter_cons, hk, fsLookup, hp] using ih

@[simp] theorem fsLookup_remove (p : FPath) (fs : FS) (q : FPath) :
    fsLookup (remove p fs) q = if isUnder p q then none else fsLookup fs q := by
  rw [remove, fsLookup_filterPaths]
  by_cases h : isUnder p q <;> simp [h]

@[simp] theorem fsLookup_writeFile (p : FPath) (c : String) (fs : FS) (q : FPath) :
    fsLookup (writeFile p c fs) q = if p = q then some c else fsLookup fs q := by
  by_cases h : p = q
  · subst h; simp [writeFile, fsLookup]
  · have h2 : ¬ q = p := fun hq => h hq.symm
    rw [writeFile]
    show (if p = q then some c else fsLookup (filterPaths _ fs) q) = _
    rw [if_neg h, if_neg h, fsLookup_filterPaths]
    simp [h2]

@[simp] theorem fsLookup_copyTemplate (tpl : FS) (q : FPath) :
    fsLookup (copyTemplate tpl) q = if copyKeep q then fsLookup tpl q else none :=
  fsLookup_filterPaths copyKeep tpl q

theorem scriptLookup_setScript (k v k2 : String) (s : List (String × String)) :
    scriptLookup (setScript k v s) k2 = if k = k2 then some v else scriptLookup s k2 := by
  induction s with
  | nil =>
    by_cases h : k = k2 <;> simp [setScript, scriptLookup, h]
  | cons e rest ih =>
    obtain ⟨a, b⟩ := e
    by_cases ha : a = k
    · subst ha
      by_cases h : a = k2
      · subst h; simp [setScript, scriptLookup]
      · simp [setScript, scriptLookup, h]
    · by_cases h2 : a = k2
      · subst h2
        have hk : ¬ k = a := fun hk2 => ha hk2.symm
        simp [setScript, scriptLookup, ha, hk]
      · simp [setScript, scriptLookup, ha, h2, ih]

theorem andThen_ok (a b : List Cmd × Bool) (h : (andThen a b).2 = true) :
    a.2 = true ∧ b.2 = true ∧ (andThen a b).1 = a.1 ++ b.1 := by
  by_cases ha : a.2 = true
  · refine ⟨ha, ?_, ?_⟩
    · simp [andThen, ha] at h
      exact h
    · simp [andThen, ha]
  · simp [andThen, ha] at h

theorem mem_andThen (a b : List Cmd × Bool) (c : Cmd) (h : c ∈ (andThen a b).1) :
    c ∈ a.1 ∨ c ∈ b.1 := by
  by_cases ha : a.2 = true
  · simp [andThen, ha] at h
    exact h
  · simp [andThen, ha] at h
    exact Or.inl h

theorem mem_runCmd (ok : Cmd → Bool) (d c : Cmd) (h : c ∈ (runCmd ok d).1) : c = d := by
  simpa [runCmd] using h

theorem mem_runIf (b : Bool) (ok : Cmd → Bool) (d c : Cmd) (h : c ∈ (runIf b ok d).1) :
    c = d := by
  cases b
  · simp [runIf] at h
  · simp [runIf, runCmd] at h
    exact h

theorem mem_runPostInstallTasks (cfg : ProjectConfig) (ok : Cmd → Bool) (c : Cmd)
    (h : c ∈ (runPostInstallTasks cfg ok).1) : c = prismaGenerateCmd := by
  unfold runPostInstallTasks at h
  split at h
  · exact mem_runCmd ok _ c h
  · simp at h

theorem allOk_runCmd (ok : Cmd → Bool) (c : Cmd) : AllOk ok (runCmd ok c) := by
  intro h d hd
  simp [runCmd] at h hd
  subst hd
  exact h

theorem allOk_runIf (b : Bool) (ok : Cmd → Bool) (c : Cmd) : AllOk ok (runIf b ok c) := by
  cases b
  · intro h d hd
    simp [runIf] at hd
  · exact allOk_runCmd ok c

theorem allOk_andThen (ok : Cmd → Bool) (a b : List Cmd × Bool)
    (ha : AllOk ok a) (hb : AllOk ok b) : AllOk ok (andThen a b) := by
  intro h d hd
  obtain ⟨h1, h2, he⟩ := andThen_ok a b h
  rw [he] at hd
  rcases List.mem_append.mp hd with hm | hm
  · exact ha h1 d hm
  · exact hb h2 d hm

theorem allOk_runPostInstallTasks (cfg : ProjectConfig) (ok : Cmd → Bool) :
    AllOk ok (runPostInstallTasks cfg ok) := by
  unfold runPostInstallTasks
  split
  · exact allOk_runCmd ok prismaGenerateCmd
  · intro h d hd
    simp at hd

theorem allOk_installDatabaseDependencies (cfg : ProjectConfig) (ok : Cmd → Bool) :
    AllOk ok (installDatabaseDependencies cfg ok) :=
  allOk_andThen ok _ _ (allOk_runIf _ ok _)
    (allOk_andThen ok _ _ (allOk_runIf _ ok _) (allOk_runPostInstallTasks cfg ok))

theorem allOk_installDependencies (cfg : ProjectConfig) (ok : Cmd → Bool) :
    AllOk ok (installDependencies cfg ok) :=
  allOk_andThen ok _ _ (allOk_runCmd ok npmBaseCmd) (allOk_installDatabaseDependencies cfg ok)

theorem prog_mem_installDependencies (cfg : ProjectConfig) (ok : Cmd → Bool) (c : Cmd)
    (h : c ∈ (installDependencies cfg ok).1) : c.prog = "npm" ∨ c.prog = "npx" := by
  rcases mem_andThen _ _ c h with h1 | h1
  · rw [mem_runCmd ok _ c h1]
    exact Or.inl rfl
  · rcases mem_andThen _ _ c h1 with h2 | h2
    · rw [mem_runIf _ ok _ c h2]
      exact Or.inl rfl
    · rcases mem_andThen _ _ c h2 with h3 | h3
      · rw [mem_runIf _ ok _ c h3]
        exact Or.inl rfl
      · rw [mem_runPostInstallTasks cfg ok c h3]
        exact Or.inr rfl

theorem runIf_fst (b : Bool) (ok : Cmd → Bool) (c : Cmd) :
    (runIf b ok c).1 = if b then [c] else [] := by
  cases b <;> simp [runIf, runCmd]

theorem runPostInstallTasks_fst (cfg : ProjectConfig) (ok : Cmd → Bool) :
    (runPostInstallTasks cfg ok).1 =
      if cfg.database = Database.postgresql ∧ cfg.orm = some Orm.prisma
      then [prismaGenerateCmd] else [] := by
  unfold runPostInstallTasks
  by_cases hc : cfg.database = Database.postgresql ∧ cfg.orm = some Orm.prisma
  · simp [hc, runCmd]
  · simp [hc]

/-- Claim C2: every `ProjectConfig` produced by `promptUser` satisfies the
invariant that `orm` is defined if and only if `database = postgresql`: the
ORM question's `when` guard shows it exactly for postgresql, and a shown
list question always yields an answer. -/
theorem promptUser_orm_iff_postgresql (a : Answers) :
    validConfig (promptUser a) = true ∧
      ((promptUser a).orm ≠ none ↔ (promptUser a).database = Database.postgresql) := by
  cases h : a.database <;>
    simp [promptUser, ormQuestionShown, validConfig, h]

/-- Claim C4: when the target directory already exists, the orchestrator
exits with code 1, never constructs or invokes the Generator (no file
writes), and runs no external command. -/
theorem existing_target_aborts_run (cfg : ProjectConfig) (tpl : Project) (w : World)
    (h : w.targetExists = true) :
    (action cfg tpl w).exitCode = 1 ∧ (action cfg tpl w).generated = none ∧
      (action cfg tpl w).extTrace = [] := by
  simp [action, h]

/-- A concrete world whose target directory already exists. -/
def worldExists : World :=
  { targetExists := true, installOk := fun _ => true, gitOk := fun _ => true }

theorem existing_target_aborts_run_witness :
    worldExists.targetExists = true ∧
      ((action cfgMongo tplW worldExists).exitCode = 1 ∧
        (action cfgMongo tplW worldExists).generated = none ∧
        (action cfgMongo tplW worldExists).extTrace = []) :=
  ⟨rfl, existing_target_aborts_run cfgMongo tplW worldExists rfl⟩

/-- Claim C5: every failure in the git sequence is caught inside `initGit`
and turned into a warning; the orchestrator still prints the success summary
and exits with code 0. -/
theorem git_failure_nonfatal (cfg : ProjectConfig) (tpl : Project) (w : World)
    (hdir : w.targetExists = false)
    (hinst : (installDependencies cfg w.installOk).2 = true)
    (hgit : (runSeq w.gitOk gitCmds).2 = false) :
    (action cfg tpl w).exitCode = 0 ∧ (action cfg tpl w).successPrinted = true ∧
      (action cfg tpl w).gitWarned = true := by
  simp [action, hdir, hinst, initGit, hgit]

/-- A concrete world where every git command fails but installs succeed. -/
def worldGitFails : World :=
  { targetExists := false, installOk := fun _ => true, gitOk := fun _ => false }

theorem git_failure_nonfatal_witness :
    worldGitFails.targetExists = false ∧
      (installDependencies cfgMongo worldGitFails.installOk).2 = true ∧
      (runSeq worldGitFails.gitOk gitCmds).2 = false ∧
      ((action cfgMongo tplW worldGitFails).exitCode = 0 ∧
        (action cfgMongo tplW worldGitFails).successPrinted = true ∧
        (action cfgMongo tplW worldGitFails).gitWarned = true) :=
  ⟨rfl, rfl, rfl, git_failure_nonfatal cfgMongo tplW worldGitFails rfl rfl rfl⟩

/-- Claim C10: `updatePackageJson` sets `version` to the fixed "0.1.0" and
`name` to the project name for every config, leaves every other manifest
field unchanged, and changes no script entry outside the database-specific
keys of the config. -/
theorem updatePackageJson_frame (cfg : ProjectConfig) (pkg : PackageJson) :
    (updatePackageJson cfg pkg).name = cfg.projectName ∧
    (updatePackageJson cfg pkg).version = "0.1.0" ∧
    (updatePackageJson cfg pkg).extra = pkg.extra ∧
    ∀ k, k ∉ touchedScriptKeys cfg →
      scriptLookup (updatePackageJson cfg pkg).scripts k = scriptLookup pkg.scripts k := by
  cases hdb : cfg.database
  case mongodb =>
    refine ⟨?_, ?_, ?_, ?_⟩ <;> simp [updatePackageJson, hdb]
  case postgresql =>
    cases ho : cfg.orm
    case none =>
      refine ⟨?_, ?_, ?_, ?_⟩ <;> simp [updatePackageJson, hdb, ho]
    case some o =>
      cases o
      case prisma =>
        refine ⟨?_, ?_, ?_, ?_⟩ <;> simp [updatePackageJson, hdb, ho]
        intro k hk
        simp [touchedScriptKeys, hdb, ho] at hk
        obtain ⟨h1, h2, h3⟩ := hk
        rw [scriptLookup_setScript, if_neg (fun h => h3 h.symm),
          scriptLookup_setScript, if_neg (fun h => h2 h.symm),
          scriptLookup_setScript, if_neg (fun h => h1 h.symm)]
      case drizzle =>
        refine ⟨?_, ?_, ?_, ?_⟩ <;> simp [updatePackageJson, hdb, ho]
        intro k hk
        simp [touchedScriptKeys, hdb, ho] at hk
        obtain ⟨h1, h2, h3⟩ := hk
        rw [scriptLookup_setScript, if_neg (fun h => h3 h.symm),
          scriptLookup_setScript, if_neg (fun h => h2 h.symm),
          scriptLookup_setScript, if_neg (fun h => h1 h.symm)]

theorem updatePackageJson_frame_witness :
    ("test" ∉ touchedScriptKeys cfgPrisma) ∧
      scriptLookup (updatePackageJson cfgPrisma pkgW).scripts "test" =
        scriptLookup pkgW.scripts "test" :=
  ⟨by decide, (updatePackageJson_frame cfgPrisma pkgW).2.2.2 "test" (by decide)⟩

/-- Claim C9: for the invalid config postgresql with `orm` undefined,
`configureDatabase` only removes the mongoose connection file — the prisma
and drizzle connection files survive and the barrel file is untouched —
`updatePackageJson` adds no scripts, and no database dependencies are
installed. -/
theorem pg_without_orm_partial_configure (cfg : ProjectConfig) (fs : FS)
    (pkg : PackageJson) (ok : Cmd → Bool)
    (hdb : cfg.database = Database.postgresql) (ho : cfg.orm = none) :
    configureDatabase cfg fs = remove (dbDir ++ ["mongoose.connection.ts"]) fs ∧
    fsLookup (configureDatabase cfg fs) (dbDir ++ ["prisma.connection.ts"]) =
      fsLookup fs (dbDir ++ ["prisma.connection.ts"]) ∧
    fsLookup (configureDatabase cfg fs) (dbDir ++ ["drizzle.connection.ts"]) =
      fsLookup fs (dbDir ++ ["drizzle.connection.ts"]) ∧
    fsLookup (configureDatabase cfg fs) indexPath = fsLookup fs indexPath ∧
    (updatePackageJson cfg pkg).scripts = pkg.scripts ∧
    (installDatabaseDependencies cfg ok).1 = [] := by
  have h1 : configureDatabase cfg fs = remove (dbDir ++ ["mongoose.connection.ts"]) fs := by
    simp [configureDatabase, hdb, ho]
  refine ⟨h1, ?_, ?_, ?_, ?_, ?_⟩
  · rw [h1]
    simp [dbDir, isUnder]
  · rw [h1]
    simp [dbDir, isUnder]
  · rw [h1]
    simp [dbDir, indexPath, isUnder]
  · simp [updatePackageJson, hdb, ho]
  · simp [installDatabaseDependencies, depsFor, devDepsFor, hdb, ho,
      runIf, andThen, runPostInstallTasks]

theorem pg_without_orm_partial_configure_witness :
    cfgPgNone.database = Database.postgresql ∧ cfgPgNone.orm = none ∧
      (configureDatabase cfgPgNone tplFS =
          remove (dbDir ++ ["mongoose.connection.ts"]) tplFS ∧
        fsLookup (configureDatabase cfgPgNone tplFS) (dbDir ++ ["prisma.connection.ts"]) =
          fsLookup tplFS (dbDir ++ ["prisma.connection.ts"]) ∧
        fsLookup (configureDatabase cfgPgNone tplFS) (dbDir ++ ["drizzle.connection.ts"]) =
          fsLookup tplFS (dbDir ++ ["drizzle.connection.ts"]) ∧
        fsLookup (configureDatabase cfgPgNone tplFS) indexPath = fsLookup tplFS indexPath ∧
        (updatePackageJson cfgPgNone pkgW).scripts = pkgW.scripts ∧
        (installDatabaseDependencies cfgPgNone (fun _ => true)).1 = []) :=
  ⟨rfl, rfl, pg_without_orm_partial_configure cfgPgNone tplFS pkgW (fun _ => true) rfl rfl⟩

/-- Claim C3: if any package-manager invocation that actually runs (base
install, dependency installs, or the prisma-generate step) fails, the failure
propagates out of `installDependencies`, the orchestrator exits with code 1
after printing the error, and no git command is ever invoked. -/
theorem install_failure_aborts_run (cfg : ProjectConfig) (tpl : Project) (w : World) (c : Cmd)
    (hdir : w.targetExists = false)
    (hmem : c ∈ (installDependencies cfg w.installOk).1)
    (hfail : w.installOk c = false) :
    (installDependencies cfg w.installOk).2 = false ∧
    (action cfg tpl w).exitCode = 1 ∧
    (action cfg tpl w).errorPrinted = true ∧
    ∀ g ∈ (action cfg tpl w).extTrace, g.prog ≠ "git" := by
  have hsnd : (installDependencies cfg w.installOk).2 = false := by
    cases hb : (installDependencies cfg w.installOk).2
    · rfl
    · have := allOk_installDependencies cfg w.installOk hb c hmem
      rw [hfail] at this
      exact absurd this (by simp)
  refine ⟨hsnd, ?_, ?_, ?_⟩
  · simp [action, hdir, hsnd]
  · simp [action, hdir, hsnd]
  · intro g hg
    simp [action, hdir, hsnd] at hg
    rcases prog_mem_installDependencies cfg w.installOk g hg with h | h <;> simp [h]

/-- A concrete world where every installer command fails. -/
def worldInstallFails : World :=
  { targetExists := false, installOk := fun _ => false, gitOk := fun _ => true }

theorem install_failure_aborts_run_witness :
    worldInstallFails.targetExists = false ∧
      npmBaseCmd ∈ (installDependencies cfgMongo worldInstallFails.installOk).1 ∧
      worldInstallFails.installOk npmBaseCmd = false ∧
      ((installDependencies cfgMongo worldInstallFails.installOk).2 = false ∧
        (action cfgMongo tplW worldInstallFails).exitCode = 1 ∧
        (action cfgMongo tplW worldInstallFails).errorPrinted = true ∧
        ∀ g ∈ (action cfgMongo tplW worldInstallFails).extTrace, g.prog ≠ "git") :=
  ⟨rfl, by decide, rfl,
    install_failure_aborts_run cfgMongo tplW worldInstallFails npmBaseCmd rfl (by decide) rfl⟩

/-- Claim C6: on a successful run the installer's invocations are exactly, in
order: the base `npm install` with no package arguments; an `npm install`
naming the runtime dependencies when that list is non-empty; an
`npm install --save-dev` naming the dev dependencies when that list is
non-empty; and `npx prisma generate`, which runs if and only if
`database = postgresql` and `orm = prisma`. -/
theorem installer_invocation_order (cfg : ProjectConfig) (ok : Cmd → Bool)
    (h : (installDependencies cfg ok).2 = true) :
    (installDependencies cfg ok).1 =
      npmBaseCmd ::
        ((if 0 < (depsFor cfg).length then [npmInstallCmd (depsFor cfg)] else []) ++
          (if 0 < (devDepsFor cfg).length then [npmInstallDevCmd (devDepsFor cfg)] else []) ++
          (if cfg.database = Database.postgresql ∧ cfg.orm = some Orm.prisma
            then [prismaGenerateCmd] else [])) ∧
    (prismaGenerateCmd ∈ (installDependencies cfg ok).1 ↔
      (cfg.database = Database.postgresql ∧ cfg.orm = some Orm.prisma)) := by
  unfold installDependencies at h ⊢
  obtain ⟨hb, hX, he⟩ := andThen_ok _ _ h
  unfold installDatabaseDependencies at hX he ⊢
  obtain ⟨h1, h2, he2⟩ := andThen_ok _ _ hX
  obtain ⟨h3, h4, he3⟩ := andThen_ok _ _ h2
  rw [he, he2, he3, runIf_fst, runIf_fst, runPostInstallTasks_fst]
  constructor
  · simp [runCmd]
  · by_cases hP : cfg.database = Database.postgresql ∧ cfg.orm = some Orm.prisma
    · simp [hP, runCmd]
    · by_cases hd1 : 0 < (depsFor cfg).length <;>
        by_cases hd2 : 0 < (devDepsFor cfg).length <;>
          simp [hP, hd1, hd2, runCmd, npmBaseCmd, npmInstallCmd,
            npmInstallDevCmd, prismaGenerateCmd]

theorem installer_invocation_order_witness :
    (installDependencies cfgPrisma (fun _ => true)).2 = true ∧
      ((installDependencies cfgPrisma (fun _ => true)).1 =
        npmBaseCmd ::
          ((if 0 < (depsFor cfgPrisma).length
              then [npmInstallCmd (depsFor cfgPrisma)] else []) ++
            (if 0 < (devDepsFor cfgPrisma).length
              then [npmInstallDevCmd (devDepsFor cfgPrisma)] else []) ++
            (if cfgPrisma.database = Database.postgresql ∧ cfgPrisma.orm = some Orm.prisma
              then [prismaGenerateCmd] else [])) ∧
        (prismaGenerateCmd ∈ (installDependencies cfgPrisma (fun _ => true)).1 ↔
          (cfgPrisma.database = Database.postgresql ∧ cfgPrisma.orm = some Orm.prisma))) :=
  ⟨rfl, installer_invocation_order cfgPrisma (fun _ => true) rfl⟩

/-- Claim C1: for every config satisfying the validity invariant, after
`configureDatabase` runs on a freshly copied template containing the three
connection files, exactly one of them remains in `src/database`, and the
barrel file `src/database/index.ts` is rewritten to re-export exactly that
retained connection module. -/
theorem configureDatabase_retains_exactly_one (cfg : ProjectConfig) (tpl : FS)
    (hvalid : validConfig cfg = true) (cm cp cd : String)
    (hm : fsLookup tpl ["src", "database", "mongoose.connection.ts"] = some cm)
    (hp : fsLookup tpl ["src", "database", "prisma.connection.ts"] = some cp)
    (hd : fsLookup tpl ["src", "database", "drizzle.connection.ts"] = some cd) :
    ∃ k, k ∈ connFiles ∧
      survivors (configureDatabase cfg (copyTemplate tpl)) = [k] ∧
      fsLookup (configureDatabase cfg (copyTemplate tpl)) indexPath =
        some (barrelFor k) ∧
      strContains (barrelFor k) ("from \x27./" ++ moduleName k ++ "\x27") = true := by
  cases hdb : cfg.database
  case mongodb =>
    refine ⟨"mongoose.connection.ts", by decide, ?_, ?_, by decide⟩
    · simp [survivors, connFiles, dbDir, configureDatabase, hdb, indexPath,
        isUnder, copyKeep, hm, hp, hd]
    · have hbf : barrelFor "mongoose.connection.ts" = mongooseBarrel := rfl
      rw [hbf]
      simp [configureDatabase, hdb, indexPath, isUnder]
  case postgresql =>
    cases ho : cfg.orm
    case none =>
      rw [validConfig, hdb, ho] at hvalid
      simp at hvalid
    case some o =>
      cases o
      case prisma =>
        refine ⟨"prisma.connection.ts", by decide, ?_, ?_, by decide⟩
        · simp [survivors, connFiles, dbDir, configureDatabase, hdb, ho,
            generatePrismaSchema, prismaSchemaPath, indexPath, isUnder,
            copyKeep, hm, hp, hd]
        · have hbf : barrelFor "prisma.connection.ts" = prismaBarrel := rfl
          rw [hbf]
          simp [configureDatabase, hdb, ho, generatePrismaSchema,
            prismaSchemaPath, indexPath, isUnder]
      case drizzle =>
        refine ⟨"drizzle.connection.ts", by decide, ?_, ?_, by decide⟩
        · simp [survivors, connFiles, dbDir, configureDatabase, hdb, ho,
            indexPath, isUnder, copyKeep, hm, hp, hd]
        · have hbf : barrelFor "drizzle.connection.ts" = drizzleBarrel := rfl
          rw [hbf]
          simp [configureDatabase, hdb, ho, indexPath, isUnder]

theorem configureDatabase_retains_exactly_one_witness :
    validConfig cfgMongo = true ∧
      fsLookup tplFS ["src", "database", "mongoose.connection.ts"] = some "m" ∧
      fsLookup tplFS ["src", "database", "prisma.connection.ts"] = some "p" ∧
      fsLookup tplFS ["src", "database", "drizzle.connection.ts"] = some "d" ∧
      (∃ k, k ∈ connFiles ∧
        survivors (configureDatabase cfgMongo (copyTemplate tplFS)) = [k] ∧
        fsLookup (configureDatabase cfgMongo (copyTemplate tplFS)) indexPath =
          some (barrelFor k) ∧
        strContains (barrelFor k) ("from \x27./" ++ moduleName k ++ "\x27") = true) :=
  ⟨rfl, rfl, rfl, rfl,
    configureDatabase_retains_exactly_one cfgMongo tplFS rfl "m" "p" "d" rfl rfl rfl⟩

/-- Claim C7: for every config with postgresql and prisma, the generated tree
contains `prisma/schema.prisma` whose content has the `datasource db` block
with provider "postgresql" and `env("DATABASE_URL")`, and the manifest gets
`scripts["db:migrate"] = "prisma migrate dev"`. -/
theorem prisma_config_outputs (cfg : ProjectConfig) (tpl : Project)
    (hdb : cfg.database = Database.postgresql) (ho : cfg.orm = some Orm.prisma) :
    fsLookup (generate cfg tpl).fs prismaSchemaPath = some prismaSchemaContent ∧
    strContains prismaSchemaContent "datasource db" = true ∧
    strContains prismaSchemaContent "provider = \"postgresql\"" = true ∧
    strContains prismaSchemaContent "env(\"DATABASE_URL\")" = true ∧
    scriptLookup (generate cfg tpl).manifest.scripts "db:migrate" =
      some "prisma migrate dev" := by
  refine ⟨?_, by decide, by decide, by decide, ?_⟩
  · by_cases hdk : cfg.includeDocker = false <;>
      simp [generate, cleanGitFiles, removeDockerFiles, configureDatabase, hdb, ho,
        generatePrismaSchema, prismaSchemaPath, indexPath, isUnder, hdk]
  · simp [generate, updatePackageJson, hdb, ho, scriptLookup_setScript]

theorem prisma_config_outputs_witness :
    cfgPrisma.database = Database.postgresql ∧ cfgPrisma.orm = some Orm.prisma ∧
      (fsLookup (generate cfgPrisma tplW).fs prismaSchemaPath = some prismaSchemaContent ∧
        strContains prismaSchemaContent "datasource db" = true ∧
        strContains prismaSchemaContent "provider = \"postgresql\"" = true ∧
        strContains prismaSchemaContent "env(\"DATABASE_URL\")" = true ∧
        scriptLookup (generate cfgPrisma tplW).manifest.scripts "db:migrate" =
          some "prisma migrate dev") :=
  ⟨rfl, rfl, prisma_config_outputs cfgPrisma tplW rfl rfl⟩

/-- Claim C8: if `includeDocker` is false then none of Dockerfile,
docker-compose.yml, .dockerignore exist in the output tree; if true all
three are present, assuming all three are present in the template. -/
theorem docker_files_iff_included (cfg : ProjectConfig) (tpl : Project) :
    (cfg.includeDocker = false →
      fsLookup (generate cfg tpl).fs ["Dockerfile"] = none ∧
      fsLookup (generate cfg tpl).fs ["docker-compose.yml"] = none ∧
      fsLookup (generate cfg tpl).fs [".dockerignore"] = none) ∧
    (cfg.includeDocker = true →
      ∀ c1 c2 c3 : String,
        fsLookup tpl.fs ["Dockerfile"] = some c1 →
        fsLookup tpl.fs ["docker-compose.yml"] = some c2 →
        fsLookup tpl.fs [".dockerignore"] = some c3 →
        fsLookup (generate cfg tpl).fs ["Dockerfile"] = some c1 ∧
        fsLookup (generate cfg tpl).fs ["docker-compose.yml"] = some c2 ∧
        fsLookup (generate cfg tpl).fs [".dockerignore"] = some c3) := by
  constructor
  · intro hdk
    refine ⟨?_, ?_, ?_⟩ <;>
      simp [generate, cleanGitFiles, removeDockerFiles, hdk, isUnder]
  · intro hdk c1 c2 c3 h1 h2 h3
    cases hdb : cfg.database
    case mongodb =>
      refine ⟨?_, ?_, ?_⟩ <;>
        simp [generate, cleanGitFiles, configureDatabase, hdb, hdk, indexPath,
          dbDir, isUnder, copyKeep, h1, h2, h3]
    case postgresql =>
      cases ho : cfg.orm
      case none =>
        refine ⟨?_, ?_, ?_⟩ <;>
          simp [generate, cleanGitFiles, configureDatabase, hdb, ho, hdk,
            dbDir, isUnder, copyKeep, h1, h2, h3]
      case some o =>
        cases o
        case prisma =>
          refine ⟨?_, ?_, ?_⟩ <;>
            simp [generate, cleanGitFiles, configureDatabase, hdb, ho, hdk,
              generatePrismaSchema, prismaSchemaPath, indexPath, dbDir,
              isUnder, copyKeep, h1, h2, h3]
        case drizzle =>
          refine ⟨?_, ?_, ?_⟩ <;>
            simp [generate, cleanGitFiles, configureDatabase, hdb, ho, hdk,
              indexPath, dbDir, isUnder, copyKeep, h1, h2, h3]

theorem docker_files_iff_included_witness :
    cfgMongo.includeDocker = false ∧
      (fsLookup (generate cfgMongo tplW).fs ["Dockerfile"] = none ∧
        fsLookup (generate cfgMongo tplW).fs ["docker-compose.yml"] = none ∧
        fsLookup (generate cfgMongo tplW).fs [".dockerignore"] = none) :=
  ⟨rfl, (docker_files_iff_included cfgMongo tplW).1 rfl⟩
